import Mathlib

/-!
# DNP3 frame decoder of `11-decode-dnp3/main.go`

A shallow embedding of the decoder (`DNP3Decode`, `checkLength`, `ifDNP3`,
`setDataLinkLayer`, `setTransportLayer`, `setApplicationLayer`) and of the
code tables it consults, followed by theorems about it.

Conventions of the embedding.

* A Go `[]byte` is a `List Byte` with `Byte = Fin 256`; its capacity is taken
  equal to its length.  Byte arithmetic (`&`, `>>`, `|`, `<<`) is carried out
  on the natural number of the byte; none of the expressions of the decoder
  can overflow its Go type.
* A Go `map[byte]string` is an association list; indexing a missing key gives
  Go's zero value, the empty string.
* The decoder mutates one `DNP3` record through a pointer and can stop in the
  middle, either by `log.Fatal` or by a run-time panic on an index out of
  range.  Every stage therefore returns an `Outcome`: the record as it stands
  when the stage ends, and the failure that ended it, if any.
* Printing (`fmt.Println`, `json.MarshalIndent`) is not modelled.
-/

namespace GoDpi

/-! ## Bytes, slices and formatting -/

/-- One octet of a Go byte slice. -/
abbrev Byte := Fin 256

/-- Ways in which decoding of a buffer stops early.  `FrameTooShort` is
`log.Fatal("Invalid packet length")`, `NotDNP3` is
`log.Fatal("This is not DNP3")`, and `IndexOutOfRange i n` is the Go run-time
panic raised by reading offset `i` (or slicing up to `i`) of a buffer of
length `n`. -/
inductive DecodeError where
  | FrameTooShort
  | NotDNP3
  | IndexOutOfRange (index length : Nat)
  deriving DecidableEq, Repr

/-- Go slice expression `data[lo:hi]`; `none` when the bounds are out of range. -/
def slice (data : List Byte) (lo hi : Nat) : Option (List Byte) :=
  if lo ≤ hi ∧ hi ≤ data.length then some ((data.drop lo).take (hi - lo)) else none

/-- The two lowercase hexadecimal digits of one byte. -/
def hexByte (b : Byte) : List Char :=
  [Nat.digitChar (b.val / 16), Nat.digitChar (b.val % 16)]

/-- Go `hex.EncodeToString`: two lowercase hexadecimal digits per byte. -/
def hexEncodeToString (bs : List Byte) : String :=
  String.mk (bs.flatMap hexByte)

/-- Go `fmt.Sprintf("%0<width>x", v)` for an unsigned `v`: lowercase
hexadecimal, padded on the left with zeros up to `width` digits.  Width `0`
is the verb `%x`. -/
def fmtHex (width v : Nat) : String :=
  let ds := Nat.toDigits 16 v
  String.mk (List.replicate (width - ds.length) '0' ++ ds)

/-- Go `fmt.Sprintf("%d", v)` for an unsigned `v`. -/
def fmtDec (v : Nat) : String :=
  String.mk (Nat.toDigits 10 v)

/-- Go `binary.BigEndian.Uint16(b)`: `uint16(b[1]) | uint16(b[0])<<8`, a panic
when `b` has fewer than two bytes. -/
def BigEndianUint16 (b : List Byte) : Option Nat :=
  match b with
  | b0 :: b1 :: _ => some (b1.val ||| (b0.val <<< 8))
  | _ => none

/-- Go `binary.LittleEndian.Uint16(b)`: `uint16(b[0]) | uint16(b[1])<<8`, a
panic when `b` has fewer than two bytes. -/
def LittleEndianUint16 (b : List Byte) : Option Nat :=
  match b with
  | b0 :: b1 :: _ => some (b0.val ||| (b1.val <<< 8))
  | _ => none

/-! ## Constants and code tables -/

def MIN_HEADER_LENGTH : Nat := 10

def START_FIELD : Nat := 0x0564

/-- A Go `map[byte]string` literal. -/
abbrev CodeTable := List (Nat × String)

/-- Go map indexing `m[k]`: the stored string, or `""` when `k` is absent. -/
def CodeTable.index (m : CodeTable) (k : Nat) : String :=
  (m.lookup k).getD ""

def FCodes : CodeTable :=
  [ (0, "Confirm"),
    (1, "Read"),
    (2, "Write"),
    (3, "Select"),
    (4, "Operate"),
    (5, "Direct Operate"),
    (6, "Direct Operate No ACK"),
    (7, "Immediate Freeze"),
    (8, "Immediate Freeze No ACK"),
    (9, "Freeze and Clear"),
    (10, "Freeze and Clear No ACK"),
    (11, "Freeze With Time"),
    (12, "Freeze With Time No ACK"),
    (13, "Cold Restart"),
    (14, "Warm Restart"),
    (15, "Initialize Data"),
    (16, "Initialize Application"),
    (17, "Start Application"),
    (18, "Stop Application"),
    (19, "Save Configuration"),
    (20, "Enable Spontaneous Msg"),
    (21, "Disable Spontaneous Msg"),
    (22, "Assign Classes"),
    (23, "Delay Measurement"),
    (24, "Record Current Time"),
    (25, "Open File"),
    (26, "Close File"),
    (27, "Delete File"),
    (28, "Get File Info"),
    (29, "Authenticate File"),
    (30, "Abort File"),
    (31, "Activate Config"),
    (32, "Authentication Request"),
    (33, "Authentication Error"),
    (129, "Response"),
    (130, "Unsolicited Response"),
    (131, "Authentication Response") ]

/-- Primary link function codes; `"-"` marks a reserved or obsolete code. -/
def PfCodes : CodeTable :=
  [ (0, "Reset of Remote Link"),
    (1, "Reset of User Process"),
    (2, "Test Function For Link"),
    (3, "User Data"),
    (4, "Unconfirmed User Data"),
    (5, "-"),
    (6, "-"),
    (7, "-"),
    (8, "-"),
    (9, "Request Link Status"),
    (10, "-"),
    (11, "-"),
    (12, "-"),
    (13, "-"),
    (14, "-"),
    (15, "-") ]

/-- Secondary link function codes; `"-"` marks a reserved or obsolete code. -/
def SfCodes : CodeTable :=
  [ (0, "ACK"),
    (1, "NAK"),
    (2, "-"),
    (3, "-"),
    (4, "-"),
    (5, "-"),
    (6, "-"),
    (7, "-"),
    (8, "-"),
    (9, "-"),
    (10, "-"),
    (11, "Status of Link"),
    (12, "-"),
    (13, "-"),
    (14, "Link Service Not Functioning"),
    (15, "Link Service Not Used or Implemented") ]

/-! ## The decoded record -/

/-- The anonymous struct `DataLinkLayer.Control`. -/
structure DataLinkControl where
  ControlByte : String := ""
  IsMaster : Nat := 0
  PRM : Nat := 0
  FCB : Nat := 0
  FCV : Nat := 0
  FUNC : String := ""
  deriving DecidableEq, Repr

structure DataLinkLayer where
  Start : String := ""
  Length : Nat := 0
  Control : DataLinkControl := {}
  Destination : Nat := 0
  Source : Nat := 0
  CRC : String := ""
  deriving DecidableEq, Repr

structure TransportLayer where
  TransportByte : String := ""
  Final : Nat := 0
  First : Nat := 0
  Sequence : Nat := 0
  deriving DecidableEq, Repr

/-- The anonymous struct `ApplicationLayer.Control`. -/
structure ApplicationControl where
  ControlByte : String := ""
  First : Nat := 0
  Final : Nat := 0
  Confirm : Nat := 0
  Unsolicited : Nat := 0
  Sequence : Nat := 0
  deriving DecidableEq, Repr

structure ApplicationLayer where
  Control : ApplicationControl := {}
  Function : String := ""
  deriving DecidableEq, Repr

structure DNP3 where
  DataLinkLayer : DataLinkLayer := {}
  TransportLayer : TransportLayer := {}
  ApplicationLayer : ApplicationLayer := {}
  deriving DecidableEq, Repr

/-- The record a stage leaves behind and the failure that stopped it, if any. -/
structure Outcome where
  d : DNP3
  err : Option DecodeError
  deriving DecidableEq, Repr

/-- The stage ran to its end. -/
def Outcome.done (d : DNP3) : Outcome := ⟨d, none⟩

/-- The stage stopped with failure `e`, leaving the record as `d`. -/
def Outcome.fail (d : DNP3) (e : DecodeError) : Outcome := ⟨d, some e⟩

/-- Sequencing of two statements: the second runs only if the first ended
normally. -/
def Outcome.andThen (r : Outcome) (next : DNP3 → Outcome) : Outcome :=
  match r.err with
  | some _ => r
  | none => next r.d

/-! ## The decoder stages -/

def checkLength (d : DNP3) (data : List Byte) : Outcome :=
  if data.length < MIN_HEADER_LENGTH then
    Outcome.fail d DecodeError.FrameTooShort
  else
    Outcome.done d

def ifDNP3 (d : DNP3) (data : List Byte) : Outcome :=
  match (slice data 0 2).bind BigEndianUint16 with
  | none => Outcome.fail d (DecodeError.IndexOutOfRange 2 data.length)
  | some v =>
    if v ≠ START_FIELD then
      Outcome.fail d DecodeError.NotDNP3
    else
      Outcome.done d

/-- The link function tables of `setDataLinkLayer`. -/
inductive LinkTable where
  | Sf
  | Pf
  deriving DecidableEq, Repr

/-- The two `if` statements of `setDataLinkLayer` that fill `ctlFUNC` from
`SfCodes` (when `PRM == 0x00`) and from `PfCodes` (when `PRM == 0x01`),
starting from the zero value `""`.  The second component lists the tables
indexed along the way, in order. -/
def linkFunctionName (PRM FUNCCODE : Nat) : String × List LinkTable :=
  let r : String × List LinkTable := ("", [])
  let r := if PRM = 0x00 then (SfCodes.index FUNCCODE, r.2 ++ [LinkTable.Sf]) else r
  let r := if PRM = 0x01 then (PfCodes.index FUNCCODE, r.2 ++ [LinkTable.Pf]) else r
  r

def setDataLinkLayer (d : DNP3) (data : List Byte) : Outcome :=
  match slice data 0 2 with
  | none => Outcome.fail d (DecodeError.IndexOutOfRange 2 data.length)
  | some s =>
  let start := hexEncodeToString s
  let d := { d with DataLinkLayer.Start := start }
  match data[2]? with
  | none => Outcome.fail d (DecodeError.IndexOutOfRange 2 data.length)
  | some b2 =>
  let length := b2.val
  let d := { d with DataLinkLayer.Length := length }
  match data[3]? with
  | none => Outcome.fail d (DecodeError.IndexOutOfRange 3 data.length)
  | some b3 =>
  let ctlControl := hexEncodeToString [b3]
  let d := { d with DataLinkLayer.Control.ControlByte := ctlControl }
  let IsMaster := (b3.val &&& 0x80) >>> 7
  let d := { d with DataLinkLayer.Control.IsMaster := IsMaster }
  let PRM := (b3.val &&& 0x40) >>> 6
  let d := { d with DataLinkLayer.Control.PRM := PRM }
  let FCB := (b3.val &&& 0x20) >>> 5
  let d := { d with DataLinkLayer.Control.FCB := FCB }
  let FCV := (b3.val &&& 0x10) >>> 4
  let d := { d with DataLinkLayer.Control.FCV := FCV }
  let FUNCCODE := b3.val &&& 0x0F
  let ctlFUNCCODE := fmtDec FUNCCODE
  let ctlFUNC := (linkFunctionName PRM FUNCCODE).1
  let ctlFUNC := ctlFUNC ++ " (" ++ ctlFUNCCODE ++ ")"
  let d := { d with DataLinkLayer.Control.FUNC := ctlFUNC }
  match (slice data 4 6).bind LittleEndianUint16 with
  | none => Outcome.fail d (DecodeError.IndexOutOfRange 6 data.length)
  | some dst =>
  let d := { d with DataLinkLayer.Destination := dst }
  match (slice data 6 8).bind LittleEndianUint16 with
  | none => Outcome.fail d (DecodeError.IndexOutOfRange 8 data.length)
  | some src =>
  let d := { d with DataLinkLayer.Source := src }
  match (slice data 8 10).bind LittleEndianUint16 with
  | none => Outcome.fail d (DecodeError.IndexOutOfRange 10 data.length)
  | some crc =>
  let crcStr := "0x" ++ fmtHex 4 crc
  let d := { d with DataLinkLayer.CRC := crcStr }
  Outcome.done d

def setTransportLayer (d : DNP3) (data : List Byte) : Outcome :=
  match data[10]? with
  | none => Outcome.fail d (DecodeError.IndexOutOfRange 10 data.length)
  | some b10 =>
  let transport := "0x" ++ fmtHex 2 b10.val
  let d := { d with TransportLayer.TransportByte := transport }
  let final := (b10.val &&& 0x80) >>> 7
  let d := { d with TransportLayer.Final := final }
  let first := (b10.val &&& 0x40) >>> 6
  let d := { d with TransportLayer.First := first }
  let sequence := b10.val &&& 0x3f
  let d := { d with TransportLayer.Sequence := sequence }
  Outcome.done d

def setApplicationLayer (d : DNP3) (data : List Byte) : Outcome :=
  match data[11]? with
  | none => Outcome.fail d (DecodeError.IndexOutOfRange 11 data.length)
  | some b11 =>
  let controlByte := "0x" ++ fmtHex 0 b11.val
  let d := { d with ApplicationLayer.Control.ControlByte := controlByte }
  let first := (b11.val &&& 0x80) >>> 7
  let d := { d with ApplicationLayer.Control.First := first }
  let final := (b11.val &&& 0x40) >>> 6
  let d := { d with ApplicationLayer.Control.Final := final }
  let confirm := (b11.val &&& 0x20) >>> 5
  let d := { d with ApplicationLayer.Control.Confirm := confirm }
  let unsolicited := (b11.val &&& 0x10) >>> 4
  let d := { d with ApplicationLayer.Control.Unsolicited := unsolicited }
  let sequence := b11.val &&& 0x0f
  let d := { d with ApplicationLayer.Control.Sequence := sequence }
  match data[12]? with
  | none => Outcome.fail d (DecodeError.IndexOutOfRange 12 data.length)
  | some b12 =>
  let funcByte := "0x" ++ fmtHex 0 b12.val
  let d := { d with ApplicationLayer.Function := FCodes.index b12.val ++ " (" ++ funcByte ++ ")" }
  Outcome.done d

/-- The body of `DNP3Decode` for a packet whose application layer is present,
`dataByte` being its payload: a fresh zero record `&DNP3{}` is passed through
the five stages in order. -/
def DNP3Decode (dataByte : List Byte) : Outcome :=
  let d : DNP3 := {}
  (checkLength d dataByte).andThen fun d =>
  (match slice dataByte 0 2 with
   | none => Outcome.fail d (DecodeError.IndexOutOfRange 2 dataByte.length)
   | some s => ifDNP3 d s).andThen fun d =>
  (setDataLinkLayer d dataByte).andThen fun d =>
  (setTransportLayer d dataByte).andThen fun d =>
  setApplicationLayer d dataByte

/-! ## Closed forms of the three sub-records -/

/-- The `DataLinkLayer` written by `setDataLinkLayer` from bytes 0..9. -/
def linkRecord (b0 b1 b2 b3 b4 b5 b6 b7 b8 b9 : Byte) : DataLinkLayer :=
  { Start := hexEncodeToString [b0, b1]
    Length := b2.val
    Control :=
      { ControlByte := hexEncodeToString [b3]
        IsMaster := (b3.val &&& 0x80) >>> 7
        PRM := (b3.val &&& 0x40) >>> 6
        FCB := (b3.val &&& 0x20) >>> 5
        FCV := (b3.val &&& 0x10) >>> 4
        FUNC := (linkFunctionName ((b3.val &&& 0x40) >>> 6) (b3.val &&& 0x0F)).1
                  ++ " (" ++ fmtDec (b3.val &&& 0x0F) ++ ")" }
    Destination := b4.val ||| (b5.val <<< 8)
    Source := b6.val ||| (b7.val <<< 8)
    CRC := "0x" ++ fmtHex 4 (b8.val ||| (b9.val <<< 8)) }

/-- The `TransportLayer` written by `setTransportLayer` from byte 10. -/
def transportRecord (b10 : Byte) : TransportLayer :=
  { TransportByte := "0x" ++ fmtHex 2 b10.val
    Final := (b10.val &&& 0x80) >>> 7
    First := (b10.val &&& 0x40) >>> 6
    Sequence := b10.val &&& 0x3f }

/-- The `ApplicationLayer` written by `setApplicationLayer` from bytes 11 and 12. -/
def applicationRecord (b11 b12 : Byte) : ApplicationLayer :=
  { Control :=
      { ControlByte := "0x" ++ fmtHex 0 b11.val
        First := (b11.val &&& 0x80) >>> 7
        Final := (b11.val &&& 0x40) >>> 6
        Confirm := (b11.val &&& 0x20) >>> 5
        Unsolicited := (b11.val &&& 0x10) >>> 4
        Sequence := b11.val &&& 0x0f }
    Function := FCodes.index b12.val ++ " (" ++ ("0x" ++ fmtHex 0 b12.val) ++ ")" }

/-- The first sample payload quoted in the comment at the end of `DNP3Decode`:
`056408c40a000100fc42c0c00e7edc`. -/
def sampleFrame : List Byte :=
  [0x05, 0x64, 0x08, 0xc4, 0x0a, 0x00, 0x01, 0x00, 0xfc, 0x42, 0xc0, 0xc0, 0x0e, 0x7e, 0xdc]

/-- The second sample payload quoted in the comment at the end of `DNP3Decode`:
`05640a4401000a006e25c1c0810001c4fd`. -/
def sampleResponse : List Byte :=
  [0x05, 0x64, 0x0a, 0x44, 0x01, 0x00, 0x0a, 0x00, 0x6e, 0x25, 0xc1, 0xc0, 0x81, 0x00, 0x01,
    0xc4, 0xfd]

/-! ## Auxiliary lemmas -/

set_option maxRecDepth 100000 in
/-- Mask-and-shift on one byte, expressed with division and remainder. -/
theorem byte_mask_shift (n : Nat) (h : n < 256) :
    (n &&& 0x80) >>> 7 = n / 128 % 2 ∧ (n &&& 0x40) >>> 6 = n / 64 % 2 ∧
    (n &&& 0x20) >>> 5 = n / 32 % 2 ∧ (n &&& 0x10) >>> 4 = n / 16 % 2 ∧
    n &&& 0x0F = n % 16 ∧ n &&& 0x3f = n % 64 := by
  revert n
  decide

/-- A 16-bit word assembled with `|` and `<<` from two bytes. -/
theorem or_shiftLeft_eight (lo hi : Nat) (h : lo < 256) :
    lo ||| (hi <<< 8) = lo + 256 * hi := by
  have key := Nat.mul_add_lt_is_or (i := 8) (b := lo) (by simpa using h) hi
  rw [Nat.shiftLeft_eq, Nat.or_comm, Nat.mul_comm hi (2 ^ 8), ← key]
  norm_num
  omega

theorem exists_ten_of_length {data : List Byte} (h : 10 ≤ data.length) :
    ∃ b0 b1 b2 b3 b4 b5 b6 b7 b8 b9 rest,
      data = b0 :: b1 :: b2 :: b3 :: b4 :: b5 :: b6 :: b7 :: b8 :: b9 :: rest := by
  rcases data with _ | ⟨b0, _ | ⟨b1, _ | ⟨b2, _ | ⟨b3, _ | ⟨b4, _ | ⟨b5, _ | ⟨b6, _ | ⟨b7,
    _ | ⟨b8, _ | ⟨b9, rest⟩⟩⟩⟩⟩⟩⟩⟩⟩⟩ <;>
    first
    | exact ⟨_, _, _, _, _, _, _, _, _, _, _, rfl⟩
    | (simp at h; try omega)

theorem exists_thirteen_of_length {data : List Byte} (h : 13 ≤ data.length) :
    ∃ b0 b1 b2 b3 b4 b5 b6 b7 b8 b9 b10 b11 b12 rest,
      data = b0 :: b1 :: b2 :: b3 :: b4 :: b5 :: b6 :: b7 :: b8 :: b9 :: b10 :: b11 :: b12 ::
        rest := by
  rcases data with _ | ⟨b0, _ | ⟨b1, _ | ⟨b2, _ | ⟨b3, _ | ⟨b4, _ | ⟨b5, _ | ⟨b6, _ | ⟨b7,
    _ | ⟨b8, _ | ⟨b9, _ | ⟨b10, _ | ⟨b11, _ | ⟨b12, rest⟩⟩⟩⟩⟩⟩⟩⟩⟩⟩⟩⟩⟩ <;>
    first
    | exact ⟨_, _, _, _, _, _, _, _, _, _, _, _, _, _, rfl⟩
    | (simp at h; try omega)

/-- The link stage on a buffer holding the ten header bytes. -/
theorem setDataLinkLayer_cons (d : DNP3) (b0 b1 b2 b3 b4 b5 b6 b7 b8 b9 : Byte)
    (rest : List Byte) :
    setDataLinkLayer d (b0 :: b1 :: b2 :: b3 :: b4 :: b5 :: b6 :: b7 :: b8 :: b9 :: rest) =
      Outcome.done { d with DataLinkLayer := linkRecord b0 b1 b2 b3 b4 b5 b6 b7 b8 b9 } := by
  simp [setDataLinkLayer, slice, LittleEndianUint16, linkRecord, Outcome.done]

/-- The transport stage on a buffer that has offset 10. -/
theorem setTransportLayer_of_get (d : DNP3) (data : List Byte) (b10 : Byte)
    (h : data[10]? = some b10) :
    setTransportLayer d data =
      Outcome.done { d with TransportLayer := transportRecord b10 } := by
  simp [setTransportLayer, h, transportRecord]

/-- The application stage on a buffer that has offsets 11 and 12. -/
theorem setApplicationLayer_of_get (d : DNP3) (data : List Byte) (b11 b12 : Byte)
    (h11 : data[11]? = some b11) (h12 : data[12]? = some b12) :
    setApplicationLayer d data =
      Outcome.done { d with ApplicationLayer := applicationRecord b11 b12 } := by
  simp [setApplicationLayer, h11, h12, applicationRecord]

/-- The length check passes on ten bytes or more. -/
theorem checkLength_of_le (d : DNP3) (data : List Byte) (h : 10 ≤ data.length) :
    checkLength d data = Outcome.done d := by
  simp [checkLength, MIN_HEADER_LENGTH, Nat.not_lt.mpr h]

/-- Decoding a buffer shorter than the link header. -/
theorem DNP3Decode_short (data : List Byte) (h : data.length < 10) :
    DNP3Decode data = Outcome.fail {} DecodeError.FrameTooShort := by
  simp [DNP3Decode, checkLength, MIN_HEADER_LENGTH, h, Outcome.andThen, Outcome.fail]

/-- Decoding a buffer of at least ten bytes with a wrong start marker. -/
theorem DNP3Decode_bad_start (b0 b1 b2 b3 b4 b5 b6 b7 b8 b9 : Byte) (rest : List Byte)
    (h : ¬ (b0 = 0x05 ∧ b1 = 0x64)) :
    DNP3Decode (b0 :: b1 :: b2 :: b3 :: b4 :: b5 :: b6 :: b7 :: b8 :: b9 :: rest) =
      Outcome.fail {} DecodeError.NotDNP3 := by
  have hlen : 10 ≤ (b0 :: b1 :: b2 :: b3 :: b4 :: b5 :: b6 :: b7 :: b8 :: b9 :: rest).length := by
    simp
  have hv : b1.val ||| (b0.val <<< 8) ≠ START_FIELD := by
    rw [or_shiftLeft_eight _ _ b1.isLt, START_FIELD]
    intro hv
    have h0 : b0.val = 5 := by omega
    have h1 : b1.val = 100 := by omega
    exact h ⟨Fin.ext h0, Fin.ext h1⟩
  simp only [DNP3Decode, checkLength_of_le _ _ hlen]
  simp [Outcome.andThen, Outcome.fail, Outcome.done, slice, ifDNP3, BigEndianUint16, hv]

/-- Decoding a buffer of at least thirteen bytes with the right start marker. -/
theorem DNP3Decode_frame (b2 b3 b4 b5 b6 b7 b8 b9 b10 b11 b12 : Byte) (rest : List Byte) :
    DNP3Decode (0x05 :: 0x64 :: b2 :: b3 :: b4 :: b5 :: b6 :: b7 :: b8 :: b9 :: b10 :: b11 ::
      b12 :: rest) =
      Outcome.done
        { DataLinkLayer := linkRecord 0x05 0x64 b2 b3 b4 b5 b6 b7 b8 b9
          TransportLayer := transportRecord b10
          ApplicationLayer := applicationRecord b11 b12 } := by
  have hlen : 10 ≤ ((0x05 : Byte) :: 0x64 :: b2 :: b3 :: b4 :: b5 :: b6 :: b7 :: b8 :: b9 ::
      b10 :: b11 :: b12 :: rest).length := by
    simp
  simp only [DNP3Decode, checkLength_of_le _ _ hlen, setDataLinkLayer_cons]
  have hv : (0x64 : Byte).val ||| ((0x05 : Byte).val <<< 8) = 1380 := by decide
  simp [Outcome.andThen, Outcome.done, slice, ifDNP3, BigEndianUint16, START_FIELD, hv,
    setTransportLayer, setApplicationLayer, transportRecord, applicationRecord]

/-- Decoding a buffer of ten, eleven or twelve bytes with the right start
marker: the link header is written, then an index is out of range. -/
theorem DNP3Decode_truncated (b2 b3 b4 b5 b6 b7 b8 b9 b10 b11 : Byte) :
    DNP3Decode [0x05, 0x64, b2, b3, b4, b5, b6, b7, b8, b9] =
      Outcome.fail { DataLinkLayer := linkRecord 0x05 0x64 b2 b3 b4 b5 b6 b7 b8 b9 }
        (DecodeError.IndexOutOfRange 10 10) ∧
    DNP3Decode [0x05, 0x64, b2, b3, b4, b5, b6, b7, b8, b9, b10] =
      Outcome.fail
        { DataLinkLayer := linkRecord 0x05 0x64 b2 b3 b4 b5 b6 b7 b8 b9
          TransportLayer := transportRecord b10 }
        (DecodeError.IndexOutOfRange 11 11) ∧
    DNP3Decode [0x05, 0x64, b2, b3, b4, b5, b6, b7, b8, b9, b10, b11] =
      Outcome.fail
        { DataLinkLayer := linkRecord 0x05 0x64 b2 b3 b4 b5 b6 b7 b8 b9
          TransportLayer := transportRecord b10
          ApplicationLayer :=
            { Control := (applicationRecord b11 0).Control } }
        (DecodeError.IndexOutOfRange 12 12) :=
  ⟨rfl, rfl, rfl⟩

theorem linkFunctionName_zero (c : Nat) :
    linkFunctionName 0 c = (SfCodes.index c, [LinkTable.Sf]) := rfl

theorem linkFunctionName_one (c : Nat) :
    linkFunctionName 1 c = (PfCodes.index c, [LinkTable.Pf]) := rfl

/-- A buffer that decodes without failure has thirteen bytes or more and
starts with `05 64`. -/
theorem frame_of_decoded {data : List Byte} (h : (DNP3Decode data).err = none) :
    ∃ b2 b3 b4 b5 b6 b7 b8 b9 b10 b11 b12 rest,
      data = 0x05 :: 0x64 :: b2 :: b3 :: b4 :: b5 :: b6 :: b7 :: b8 :: b9 :: b10 :: b11 ::
        b12 :: rest := by
  by_cases hlen : data.length < 10
  · rw [DNP3Decode_short data hlen] at h
    simp [Outcome.fail] at h
  · obtain ⟨b0, b1, b2, b3, b4, b5, b6, b7, b8, b9, rest, rfl⟩ :=
      exists_ten_of_length (Nat.not_lt.mp hlen)
    by_cases hs : b0 = 0x05 ∧ b1 = 0x64
    · obtain ⟨rfl, rfl⟩ := hs
      rcases rest with _ | ⟨b10, _ | ⟨b11, _ | ⟨b12, rest⟩⟩⟩
      · rw [(DNP3Decode_truncated b2 b3 b4 b5 b6 b7 b8 b9 0 0).1] at h
        simp [Outcome.fail] at h
      · rw [(DNP3Decode_truncated b2 b3 b4 b5 b6 b7 b8 b9 b10 0).2.1] at h
        simp [Outcome.fail] at h
      · rw [(DNP3Decode_truncated b2 b3 b4 b5 b6 b7 b8 b9 b10 b11).2.2] at h
        simp [Outcome.fail] at h
      · exact ⟨b2, b3, b4, b5, b6, b7, b8, b9, b10, b11, b12, rest, rfl⟩
    · rw [DNP3Decode_bad_start b0 b1 b2 b3 b4 b5 b6 b7 b8 b9 rest hs] at h
      simp [Outcome.fail] at h

set_option maxRecDepth 1000000 in
/-- Within one link function table the label determines the function code. -/
theorem link_label_code :
    ∀ p < 2, ∀ c < 16, ∀ c' < 16,
      (linkFunctionName p c).1 ++ " (" ++ fmtDec c ++ ")" =
        (linkFunctionName p c').1 ++ " (" ++ fmtDec c' ++ ")" → c = c' := by
  decide

/-- The verb `%x`: no padding. -/
theorem fmtHex_zero (v : Nat) : fmtHex 0 v = String.mk (Nat.toDigits 16 v) := by
  simp [fmtHex]

/-- Every index `0..15` is a key of both link function tables, with a
non-empty name. -/
theorem link_tables_total :
    ∀ c < 16, (∃ name, PfCodes.lookup c = some name ∧ name ≠ "") ∧
      (∃ name, SfCodes.lookup c = some name ∧ name ≠ "") := by
  decide

set_option maxRecDepth 1000000 in
/-- The keys of `FCodes` among the byte values, and the names stored there. -/
theorem FCodes_keys :
    ∀ n < 256,
      ((n ≤ 33 ∨ (129 ≤ n ∧ n ≤ 131)) →
        (FCodes.lookup n).isSome = true ∧ FCodes.lookup n ≠ some "") ∧
      (¬ (n ≤ 33 ∨ (129 ≤ n ∧ n ≤ 131)) → FCodes.lookup n = none) := by
  decide

/-- One step of the digit loop behind `%x`. -/
theorem toDigitsCore_step (fuel n : Nat) (ds : List Char) :
    Nat.toDigitsCore 16 (fuel + 1) n ds =
      if n / 16 = 0 then Nat.digitChar (n % 16) :: ds
      else Nat.toDigitsCore 16 fuel (n / 16) (Nat.digitChar (n % 16) :: ds) := by
  simp [Nat.toDigitsCore]

/-- The verb `%04x` on a 16-bit value prints its four hexadecimal digits. -/
theorem fmtHex_four (v : Nat) (h : v < 65536) :
    fmtHex 4 v =
      String.mk [Nat.digitChar (v / 4096), Nat.digitChar (v / 256 % 16),
        Nat.digitChar (v / 16 % 16), Nat.digitChar (v % 16)] := by
  show String.mk (List.replicate (4 - (Nat.toDigits 16 v).length) '0' ++ Nat.toDigits 16 v) = _
  congr 1
  unfold Nat.toDigits
  by_cases h1 : v / 16 = 0
  · rw [toDigitsCore_step, if_pos h1]
    have e1 : v / 4096 = 0 := by omega
    have e2 : v / 256 % 16 = 0 := by omega
    have e3 : v / 16 % 16 = 0 := by omega
    rw [e1, e2, e3]
    rfl
  · rw [toDigitsCore_step, if_neg h1]
    obtain ⟨k, rfl⟩ : ∃ k, v = k + 1 := ⟨v - 1, by omega⟩
    by_cases h2 : (k + 1) / 16 / 16 = 0
    · rw [toDigitsCore_step, if_pos h2]
      have e1 : (k + 1) / 4096 = 0 := by omega
      have e2 : (k + 1) / 256 % 16 = 0 := by omega
      rw [e1, e2]
      rfl
    · rw [toDigitsCore_step, if_neg h2]
      obtain ⟨j, rfl⟩ : ∃ j, k = j + 1 := ⟨k - 1, by omega⟩
      by_cases h3 : (j + 1 + 1) / 16 / 16 / 16 = 0
      · rw [toDigitsCore_step, if_pos h3]
        have e1 : (j + 1 + 1) / 4096 = 0 := by omega
        have e2 : (j + 1 + 1) / 16 / 16 % 16 = (j + 1 + 1) / 256 % 16 := by omega
        rw [e1, e2]
        rfl
      · rw [toDigitsCore_step, if_neg h3]
        obtain ⟨i, rfl⟩ : ∃ i, j = i + 1 := ⟨j - 1, by omega⟩
        have h4 : (i + 1 + 1 + 1) / 16 / 16 / 16 / 16 = 0 := by omega
        rw [toDigitsCore_step, if_pos h4]
        have e1 : (i + 1 + 1 + 1) / 16 / 16 / 16 % 16 = (i + 1 + 1 + 1) / 4096 := by omega
        have e2 : (i + 1 + 1 + 1) / 16 / 16 % 16 = (i + 1 + 1 + 1) / 256 % 16 := by omega
        rw [e1, e2]
        rfl

/-- Hexadecimal digits below 16 are lowercase and pairwise distinct. -/
theorem digitChar_hex :
    (∀ a < 16, Nat.digitChar a ∈ "0123456789abcdef".data) ∧
    (∀ a < 16, ∀ b < 16, Nat.digitChar a = Nat.digitChar b → a = b) := by
  constructor <;> decide

/-! ## Validation of the buffer -/

/-- C1: for every byte buffer of length less than 10, `checkLength` already
stops with `FrameTooShort` and leaves the record it is given unchanged, so
decoding fails with `FrameTooShort` and the record is still the zero record:
no field has been written. -/
theorem C1_short_buffer_frame_too_short (data : List Byte) (h : data.length < 10) :
    (∀ d : DNP3, checkLength d data = Outcome.fail d DecodeError.FrameTooShort) ∧
    (DNP3Decode data).err = some DecodeError.FrameTooShort ∧
    (DNP3Decode data).d = ({} : DNP3) := by
  refine ⟨fun d => ?_, ?_, ?_⟩
  · simp [checkLength, MIN_HEADER_LENGTH, h]
  · rw [DNP3Decode_short data h]; rfl
  · rw [DNP3Decode_short data h]; rfl

/-- Witness of C1 at the empty buffer and at a five-byte buffer that starts
with the DNP3 start marker. -/
theorem C1_short_buffer_frame_too_short_witness :
    ([] : List Byte).length < 10 ∧
    ([0x05, 0x64, 0x08, 0xc4, 0x0a] : List Byte).length < 10 ∧
    (DNP3Decode []).err = some DecodeError.FrameTooShort ∧
    (DNP3Decode [0x05, 0x64, 0x08, 0xc4, 0x0a]).err = some DecodeError.FrameTooShort ∧
    (DNP3Decode [0x05, 0x64, 0x08, 0xc4, 0x0a]).d = ({} : DNP3) :=
  ⟨by decide, by decide,
    (C1_short_buffer_frame_too_short [] (by decide)).2.1,
    (C1_short_buffer_frame_too_short [0x05, 0x64, 0x08, 0xc4, 0x0a] (by decide)).2.1,
    (C1_short_buffer_frame_too_short [0x05, 0x64, 0x08, 0xc4, 0x0a] (by decide)).2.2⟩

/-- C2: for every byte buffer of length at least 10 whose first two bytes are
not `05` followed by `64`, the big-endian 16-bit value of bytes 0..1, which is
what `ifDNP3` compares, differs from `0x0564`, and decoding fails with
`NotDNP3` (the record is still the zero record). -/
theorem C2_wrong_start_not_dnp3 (data : List Byte) (b0 b1 : Byte) (hlen : 10 ≤ data.length)
    (h0 : data[0]? = some b0) (h1 : data[1]? = some b1) (hne : ¬ (b0 = 0x05 ∧ b1 = 0x64)) :
    (slice data 0 2).bind BigEndianUint16 = some (256 * b0.val + b1.val) ∧
    256 * b0.val + b1.val ≠ START_FIELD ∧
    DNP3Decode data = Outcome.fail {} DecodeError.NotDNP3 := by
  obtain ⟨a0, a1, b2, b3, b4, b5, b6, b7, b8, b9, rest, rfl⟩ := exists_ten_of_length hlen
  simp at h0 h1
  subst h0 h1
  refine ⟨?_, ?_, DNP3Decode_bad_start a0 a1 b2 b3 b4 b5 b6 b7 b8 b9 rest hne⟩
  · simp [slice, BigEndianUint16, or_shiftLeft_eight _ _ a1.isLt]
    omega
  · intro hv
    rw [START_FIELD] at hv
    have e0 : a0.val = 5 := by omega
    have e1 : a1.val = 100 := by omega
    exact hne ⟨Fin.ext e0, Fin.ext e1⟩

/-- Witness of C2 at the buffer `ff ff 08 c4 0a 00 01 00 fc 42`. -/
theorem C2_wrong_start_not_dnp3_witness :
    10 ≤ ([0xff, 0xff, 0x08, 0xc4, 0x0a, 0x00, 0x01, 0x00, 0xfc, 0x42] : List Byte).length ∧
    ¬ ((0xff : Byte) = 0x05 ∧ (0xff : Byte) = 0x64) ∧
    DNP3Decode [0xff, 0xff, 0x08, 0xc4, 0x0a, 0x00, 0x01, 0x00, 0xfc, 0x42] =
      Outcome.fail {} DecodeError.NotDNP3 ∧
    DNP3Decode [0x64, 0x05, 0x08, 0xc4, 0x0a, 0x00, 0x01, 0x00, 0xfc, 0x42] =
      Outcome.fail {} DecodeError.NotDNP3 :=
  ⟨by decide, by decide,
    (C2_wrong_start_not_dnp3 [0xff, 0xff, 0x08, 0xc4, 0x0a, 0x00, 0x01, 0x00, 0xfc, 0x42]
      0xff 0xff (by decide) rfl rfl (by decide)).2.2,
    (C2_wrong_start_not_dnp3 [0x64, 0x05, 0x08, 0xc4, 0x0a, 0x00, 0x01, 0x00, 0xfc, 0x42]
      0x64 0x05 (by decide) rfl rfl (by decide)).2.2⟩

/-- C3: the decoder does not check the length again after the link header.
On the first ten, eleven and twelve bytes of the sample frame
`05 64 08 c4 0a 00 01 00 fc 42 c0 c0 ...`, `checkLength` and `ifDNP3` pass and the link header is written;
decoding then stops on an index out of range (offset 10, 11, 12 respectively)
and not with `FrameTooShort`.  With twelve bytes the application control
fields have been written before the read of offset 12 fails. -/
theorem C3_truncated_frame_index_out_of_range :
    (DNP3Decode [0x05, 0x64, 0x08, 0xc4, 0x0a, 0x00, 0x01, 0x00, 0xfc, 0x42]).err =
      some (DecodeError.IndexOutOfRange 10 10) ∧
    (DNP3Decode [0x05, 0x64, 0x08, 0xc4, 0x0a, 0x00, 0x01, 0x00, 0xfc, 0x42, 0xc0]).err =
      some (DecodeError.IndexOutOfRange 11 11) ∧
    (DNP3Decode [0x05, 0x64, 0x08, 0xc4, 0x0a, 0x00, 0x01, 0x00, 0xfc, 0x42, 0xc0, 0xc0]).err =
      some (DecodeError.IndexOutOfRange 12 12) ∧
    (DNP3Decode [0x05, 0x64, 0x08, 0xc4, 0x0a, 0x00, 0x01, 0x00, 0xfc, 0x42]).err ≠
      some DecodeError.FrameTooShort ∧
    (DNP3Decode [0x05, 0x64, 0x08, 0xc4, 0x0a, 0x00, 0x01, 0x00, 0xfc, 0x42, 0xc0]).err ≠
      some DecodeError.FrameTooShort ∧
    (DNP3Decode [0x05, 0x64, 0x08, 0xc4, 0x0a, 0x00, 0x01, 0x00, 0xfc, 0x42, 0xc0, 0xc0]).err ≠
      some DecodeError.FrameTooShort ∧
    (DNP3Decode [0x05, 0x64, 0x08, 0xc4, 0x0a, 0x00, 0x01, 0x00, 0xfc, 0x42]).d.DataLinkLayer.Start
      = "0564" ∧
    (DNP3Decode [0x05, 0x64, 0x08, 0xc4, 0x0a, 0x00, 0x01, 0x00, 0xfc, 0x42, 0xc0,
      0xc0]).d.ApplicationLayer.Control.ControlByte = "0xc0" := by
  refine ⟨rfl, rfl, rfl, ?_, ?_, ?_, rfl, rfl⟩ <;> decide

/-! ## The link control byte -/

/-- C4: for every buffer of at least 13 bytes that starts with `05 64`, with
`c = data[3] & 0x0F` and PRM the bit 6 of `data[3]`: decoding succeeds, the
PRM field is that bit, and the link function label is
`PfCodes[c] ++ " (" ++ decimal c ++ ")"` when PRM is 1 and
`SfCodes[c] ++ " (" ++ decimal c ++ ")"` when PRM is 0.  PRM is 0 or 1, and the
list of tables indexed by the two `if` statements has exactly one element:
`PfCodes` alone when PRM is 1, `SfCodes` alone when PRM is 0. -/
theorem C4_link_function_table_by_prm (data : List Byte) (b3 : Byte)
    (hlen : 13 ≤ data.length) (h0 : data[0]? = some 0x05) (h1 : data[1]? = some 0x64)
    (h3 : data[3]? = some b3) :
    (DNP3Decode data).err = none ∧
    (DNP3Decode data).d.DataLinkLayer.Control.PRM = b3.val / 64 % 2 ∧
    (b3.val / 64 % 2 = 1 →
      (DNP3Decode data).d.DataLinkLayer.Control.FUNC =
        PfCodes.index (b3.val &&& 0x0F) ++ " (" ++ Nat.repr (b3.val &&& 0x0F) ++ ")" ∧
      (linkFunctionName (DNP3Decode data).d.DataLinkLayer.Control.PRM (b3.val &&& 0x0F)).2 =
        [LinkTable.Pf]) ∧
    (b3.val / 64 % 2 = 0 →
      (DNP3Decode data).d.DataLinkLayer.Control.FUNC =
        SfCodes.index (b3.val &&& 0x0F) ++ " (" ++ Nat.repr (b3.val &&& 0x0F) ++ ")" ∧
      (linkFunctionName (DNP3Decode data).d.DataLinkLayer.Control.PRM (b3.val &&& 0x0F)).2 =
        [LinkTable.Sf]) ∧
    (b3.val / 64 % 2 = 0 ∨ b3.val / 64 % 2 = 1) ∧
    (linkFunctionName (DNP3Decode data).d.DataLinkLayer.Control.PRM
      (b3.val &&& 0x0F)).2.length = 1 := by
  obtain ⟨a0, a1, b2, a3, b4, b5, b6, b7, b8, b9, b10, b11, b12, rest, rfl⟩ :=
    exists_thirteen_of_length hlen
  simp at h0 h1 h3
  subst h0 h1 h3
  rw [DNP3Decode_frame]
  obtain ⟨-, hprm, -, -, -, -⟩ := byte_mask_shift a3.val a3.isLt
  simp only [Outcome.done, linkRecord, hprm]
  have hbit : a3.val / 64 % 2 = 0 ∨ a3.val / 64 % 2 = 1 := by omega
  refine ⟨trivial, trivial, ?_, ?_, hbit, ?_⟩
  · intro h
    rw [h, linkFunctionName_one]
    exact ⟨rfl, rfl⟩
  · intro h
    rw [h, linkFunctionName_zero]
    exact ⟨rfl, rfl⟩
  · rcases hbit with h | h
    · rw [h, linkFunctionName_zero]; rfl
    · rw [h, linkFunctionName_one]; rfl

/-- Witness of C4 at the two sample payloads: control byte `c4` (PRM 1, code 4)
and, with PRM cleared, control byte `84` (PRM 0, code 4). -/
theorem C4_link_function_table_by_prm_witness :
    13 ≤ sampleFrame.length ∧ sampleFrame[0]? = some 0x05 ∧ sampleFrame[1]? = some 0x64 ∧
    sampleFrame[3]? = some 0xc4 ∧
    (DNP3Decode sampleFrame).err = none ∧
    (DNP3Decode sampleFrame).d.DataLinkLayer.Control.PRM = 1 ∧
    (DNP3Decode sampleFrame).d.DataLinkLayer.Control.FUNC = "Unconfirmed User Data (4)" := by
  have h := C4_link_function_table_by_prm sampleFrame 0xc4 (by decide) rfl rfl rfl
  exact ⟨by decide, rfl, rfl, rfl, h.1, h.2.1, (h.2.2.1 (by decide)).1⟩

/-- C5: for every value `b` of the link control byte (offset 3 of a buffer that
holds the ten header bytes), `setDataLinkLayer` ends normally with
IsMaster = bit 7, PRM = bit 6, FCB = bit 5, FCV = bit 4 of `b`, and a label that
ends in `" (" ++ decimal c ++ ")"` for the function code `c = b & 0x0F = b % 16`.
The five sub-fields give the byte back:
`128*IsMaster + 64*PRM + 32*FCB + 16*FCV + c = b`.  The map is injective: a
second buffer whose link control record has the same four bits and the same
label has the same control byte. -/
theorem C5_link_control_byte_fields (d : DNP3) (data : List Byte) (b : Byte)
    (hlen : 10 ≤ data.length) (h3 : data[3]? = some b) :
    (setDataLinkLayer d data).err = none ∧
    (setDataLinkLayer d data).d.DataLinkLayer.Control.IsMaster = b.val / 128 % 2 ∧
    (setDataLinkLayer d data).d.DataLinkLayer.Control.PRM = b.val / 64 % 2 ∧
    (setDataLinkLayer d data).d.DataLinkLayer.Control.FCB = b.val / 32 % 2 ∧
    (setDataLinkLayer d data).d.DataLinkLayer.Control.FCV = b.val / 16 % 2 ∧
    b.val &&& 0x0F = b.val % 16 ∧
    (∃ name, (setDataLinkLayer d data).d.DataLinkLayer.Control.FUNC =
      name ++ " (" ++ Nat.repr (b.val &&& 0x0F) ++ ")") ∧
    128 * (setDataLinkLayer d data).d.DataLinkLayer.Control.IsMaster +
      64 * (setDataLinkLayer d data).d.DataLinkLayer.Control.PRM +
      32 * (setDataLinkLayer d data).d.DataLinkLayer.Control.FCB +
      16 * (setDataLinkLayer d data).d.DataLinkLayer.Control.FCV +
      (b.val &&& 0x0F) = b.val ∧
    (∀ (e : DNP3) (other : List Byte) (b' : Byte), 10 ≤ other.length → other[3]? = some b' →
      (setDataLinkLayer e other).d.DataLinkLayer.Control.IsMaster =
        (setDataLinkLayer d data).d.DataLinkLayer.Control.IsMaster →
      (setDataLinkLayer e other).d.DataLinkLayer.Control.PRM =
        (setDataLinkLayer d data).d.DataLinkLayer.Control.PRM →
      (setDataLinkLayer e other).d.DataLinkLayer.Control.FCB =
        (setDataLinkLayer d data).d.DataLinkLayer.Control.FCB →
      (setDataLinkLayer e other).d.DataLinkLayer.Control.FCV =
        (setDataLinkLayer d data).d.DataLinkLayer.Control.FCV →
      (setDataLinkLayer e other).d.DataLinkLayer.Control.FUNC =
        (setDataLinkLayer d data).d.DataLinkLayer.Control.FUNC →
      b' = b) := by
  obtain ⟨b0, b1, b2, a3, b4, b5, b6, b7, b8, b9, rest, rfl⟩ := exists_ten_of_length hlen
  simp at h3
  subst h3
  rw [setDataLinkLayer_cons]
  obtain ⟨h7, h6, h5, h4, hc, -⟩ := byte_mask_shift a3.val a3.isLt
  simp only [Outcome.done, linkRecord]
  refine ⟨trivial, h7, h6, h5, h4, hc, ⟨_, rfl⟩, ?_, ?_⟩
  · rw [h7, h6, h5, h4, hc]; omega
  · intro e other b' hlen' h3' e7 e6 e5 e4 ef
    obtain ⟨c0, c1, c2, c3, c4, c5, c6, c7, c8, c9, rest', rfl⟩ := exists_ten_of_length hlen'
    simp at h3'
    subst h3'
    rw [setDataLinkLayer_cons] at e7 e6 e5 e4 ef
    obtain ⟨g7, g6, g5, g4, gc, -⟩ := byte_mask_shift c3.val c3.isLt
    simp only [Outcome.done, linkRecord] at e7 e6 e5 e4 ef
    rw [e6] at ef
    have hcode : c3.val &&& 0x0F = a3.val &&& 0x0F :=
      link_label_code ((a3.val &&& 0x40) >>> 6) (by rw [h6]; omega) (c3.val &&& 0x0F)
        (by rw [gc]; omega) (a3.val &&& 0x0F) (by rw [hc]; omega) ef
    rw [h7, g7] at e7
    rw [h6, g6] at e6
    rw [h5, g5] at e5
    rw [h4, g4] at e4
    rw [hc, gc] at hcode
    apply Fin.ext
    omega

/-- Witness of C5 at the sample payload, whose link control byte is `c4`. -/
theorem C5_link_control_byte_fields_witness :
    10 ≤ sampleFrame.length ∧ sampleFrame[3]? = some 0xc4 ∧
    (setDataLinkLayer {} sampleFrame).err = none ∧
    (setDataLinkLayer {} sampleFrame).d.DataLinkLayer.Control.IsMaster = 1 ∧
    (setDataLinkLayer {} sampleFrame).d.DataLinkLayer.Control.PRM = 1 ∧
    (setDataLinkLayer {} sampleFrame).d.DataLinkLayer.Control.FCB = 0 ∧
    (setDataLinkLayer {} sampleFrame).d.DataLinkLayer.Control.FCV = 0 := by
  have h := C5_link_control_byte_fields {} sampleFrame 0xc4 (by decide) rfl
  exact ⟨by decide, rfl, h.1, h.2.1, h.2.2.1, h.2.2.2.1, h.2.2.2.2.1⟩

/-! ## The application control byte -/

/-- C6: for every value `b` of the application control byte (offset 11 of a
buffer of at least 13 bytes), `setApplicationLayer` ends normally with
First = bit 7, Final = bit 6, Confirm = bit 5, Unsolicited = bit 4 of `b` and
Sequence = `b & 0x0F`, the expression `data[11] & 0x80 >> 7` being read as
`(data[11] & 0x80) >> 7`.  The five sub-fields give the byte back:
`128*First + 64*Final + 32*Confirm + 16*Unsolicited + Sequence = b`. -/
theorem C6_application_control_byte_fields (d : DNP3) (data : List Byte) (b : Byte)
    (hlen : 13 ≤ data.length) (h11 : data[11]? = some b) :
    (setApplicationLayer d data).err = none ∧
    (setApplicationLayer d data).d.ApplicationLayer.Control.First = b.val / 128 % 2 ∧
    (setApplicationLayer d data).d.ApplicationLayer.Control.Final = b.val / 64 % 2 ∧
    (setApplicationLayer d data).d.ApplicationLayer.Control.Confirm = b.val / 32 % 2 ∧
    (setApplicationLayer d data).d.ApplicationLayer.Control.Unsolicited = b.val / 16 % 2 ∧
    (setApplicationLayer d data).d.ApplicationLayer.Control.Sequence = b.val &&& 0x0F ∧
    (setApplicationLayer d data).d.ApplicationLayer.Control.Sequence = b.val % 16 ∧
    (setApplicationLayer d data).d.ApplicationLayer.Control.First =
      (b.val &&& 0x80) >>> 7 ∧
    128 * (setApplicationLayer d data).d.ApplicationLayer.Control.First +
      64 * (setApplicationLayer d data).d.ApplicationLayer.Control.Final +
      32 * (setApplicationLayer d data).d.ApplicationLayer.Control.Confirm +
      16 * (setApplicationLayer d data).d.ApplicationLayer.Control.Unsolicited +
      (setApplicationLayer d data).d.ApplicationLayer.Control.Sequence = b.val := by
  obtain ⟨b12, h12⟩ : ∃ b12, data[12]? = some b12 :=
    ⟨data[12], List.getElem?_eq_getElem (by omega)⟩
  rw [setApplicationLayer_of_get d data b b12 h11 h12]
  obtain ⟨h7, h6, h5, h4, hc, -⟩ := byte_mask_shift b.val b.isLt
  simp only [Outcome.done, applicationRecord]
  refine ⟨trivial, h7, h6, h5, h4, trivial, hc, trivial, ?_⟩
  rw [h7, h6, h5, h4, hc]; omega

/-- Witness of C6 at the sample payload, whose application control byte
(offset 11) is `c0`. -/
theorem C6_application_control_byte_fields_witness :
    13 ≤ sampleFrame.length ∧ sampleFrame[11]? = some 0xc0 ∧
    (setApplicationLayer {} sampleFrame).err = none ∧
    (setApplicationLayer {} sampleFrame).d.ApplicationLayer.Control.First = 1 ∧
    (setApplicationLayer {} sampleFrame).d.ApplicationLayer.Control.Final = 1 ∧
    (setApplicationLayer {} sampleFrame).d.ApplicationLayer.Control.Confirm = 0 ∧
    (setApplicationLayer {} sampleFrame).d.ApplicationLayer.Control.Unsolicited = 0 ∧
    (setApplicationLayer {} sampleFrame).d.ApplicationLayer.Control.Sequence = 0 := by
  have h := C6_application_control_byte_fields {} sampleFrame 0xc0 (by decide) rfl
  exact ⟨by decide, rfl, h.1, h.2.1, h.2.2.1, h.2.2.2.1, h.2.2.2.2.1, h.2.2.2.2.2.2.1⟩

/-! ## The transport byte -/

/-- C7: for every value `b` of the transport byte (offset 10),
`setTransportLayer` ends normally with Final = bit 7 of `b`, First = bit 6 of
`b` and Sequence = `b & 0x3F`, so that `128*Final + 64*First + Sequence = b`;
the other two sub-records are left as they were.  The rule does not look at
Final: a second buffer whose transport byte differs from `b` at most in bit 7
is decoded without failure to the same First and the same Sequence, and its
Final is again its own bit 7. -/
theorem C7_transport_byte_fields (d : DNP3) (data : List Byte) (b : Byte)
    (h10 : data[10]? = some b) :
    (setTransportLayer d data).err = none ∧
    (setTransportLayer d data).d.TransportLayer.Final = b.val / 128 % 2 ∧
    (setTransportLayer d data).d.TransportLayer.First = b.val / 64 % 2 ∧
    (setTransportLayer d data).d.TransportLayer.Sequence = b.val &&& 0x3F ∧
    128 * (setTransportLayer d data).d.TransportLayer.Final +
      64 * (setTransportLayer d data).d.TransportLayer.First +
      (setTransportLayer d data).d.TransportLayer.Sequence = b.val ∧
    (setTransportLayer d data).d.DataLinkLayer = d.DataLinkLayer ∧
    (setTransportLayer d data).d.ApplicationLayer = d.ApplicationLayer ∧
    (∀ (other : List Byte) (b' : Byte), other[10]? = some b' → b'.val % 128 = b.val % 128 →
      (setTransportLayer d other).err = none ∧
      (setTransportLayer d other).d.TransportLayer.Final = b'.val / 128 % 2 ∧
      (setTransportLayer d other).d.TransportLayer.First =
        (setTransportLayer d data).d.TransportLayer.First ∧
      (setTransportLayer d other).d.TransportLayer.Sequence =
        (setTransportLayer d data).d.TransportLayer.Sequence) := by
  rw [setTransportLayer_of_get d data b h10]
  obtain ⟨h7, h6, -, -, -, hs⟩ := byte_mask_shift b.val b.isLt
  simp only [Outcome.done, transportRecord]
  refine ⟨trivial, h7, h6, trivial, ?_, trivial, trivial, ?_⟩
  · rw [h7, h6, hs]; omega
  · intro other b' h10' hb
    rw [setTransportLayer_of_get d other b' h10']
    obtain ⟨g7, g6, -, -, -, gs⟩ := byte_mask_shift b'.val b'.isLt
    simp only [Outcome.done, transportRecord]
    refine ⟨trivial, g7, ?_, ?_⟩
    · rw [g6, h6]; omega
    · rw [gs, hs]; omega

/-- Witness of C7 at the sample payload, whose transport byte is `c0`
(Final = 1), compared with the same payload with transport byte `40`
(Final = 0). -/
theorem C7_transport_byte_fields_witness :
    sampleFrame[10]? = some 0xc0 ∧
    (setTransportLayer {} sampleFrame).err = none ∧
    (setTransportLayer {} sampleFrame).d.TransportLayer.Final = 1 ∧
    (setTransportLayer {} sampleFrame).d.TransportLayer.First = 1 ∧
    (setTransportLayer {} sampleFrame).d.TransportLayer.Sequence = 0 ∧
    (setTransportLayer {} (sampleFrame.set 10 0x40)).err = none ∧
    (setTransportLayer {} (sampleFrame.set 10 0x40)).d.TransportLayer.Final = 0 ∧
    (setTransportLayer {} (sampleFrame.set 10 0x40)).d.TransportLayer.First =
      (setTransportLayer {} sampleFrame).d.TransportLayer.First := by
  have h := C7_transport_byte_fields {} sampleFrame 0xc0 rfl
  have h' := h.2.2.2.2.2.2.2 (sampleFrame.set 10 0x40) 0x40 rfl (by decide)
  exact ⟨rfl, h.1, h.2.1, h.2.2.1, h.2.2.2.1, h'.1, h'.2.1, h'.2.2.1⟩

/-! ## Addresses -/

/-- C8: for every buffer that decodes without failure, bytes 4..7 exist,
Destination = `data[4] + 256*data[5]` and Source = `data[6] + 256*data[7]`
(little-endian 16-bit); both lie in 0..65535 and each address byte is
recovered from its value by remainder and quotient by 256. -/
theorem C8_addresses_little_endian (data : List Byte) (h : (DNP3Decode data).err = none) :
    ∃ b4 b5 b6 b7 : Byte,
      data[4]? = some b4 ∧ data[5]? = some b5 ∧ data[6]? = some b6 ∧ data[7]? = some b7 ∧
      (DNP3Decode data).d.DataLinkLayer.Destination = b4.val + 256 * b5.val ∧
      (DNP3Decode data).d.DataLinkLayer.Source = b6.val + 256 * b7.val ∧
      (DNP3Decode data).d.DataLinkLayer.Destination < 65536 ∧
      (DNP3Decode data).d.DataLinkLayer.Source < 65536 ∧
      (DNP3Decode data).d.DataLinkLayer.Destination % 256 = b4.val ∧
      (DNP3Decode data).d.DataLinkLayer.Destination / 256 = b5.val ∧
      (DNP3Decode data).d.DataLinkLayer.Source % 256 = b6.val ∧
      (DNP3Decode data).d.DataLinkLayer.Source / 256 = b7.val := by
  obtain ⟨b2, b3, b4, b5, b6, b7, b8, b9, b10, b11, b12, rest, rfl⟩ := frame_of_decoded h
  refine ⟨b4, b5, b6, b7, rfl, rfl, rfl, rfl, ?_⟩
  rw [DNP3Decode_frame]
  simp only [Outcome.done, linkRecord]
  rw [or_shiftLeft_eight _ _ b4.isLt, or_shiftLeft_eight _ _ b6.isLt]
  have := b4.isLt
  have := b5.isLt
  have := b6.isLt
  have := b7.isLt
  refine ⟨rfl, rfl, ?_, ?_, ?_, ?_, ?_, ?_⟩ <;> omega

/-- Witness of C8 at the sample payload: destination bytes `0a 00`, source
bytes `01 00`. -/
theorem C8_addresses_little_endian_witness :
    (DNP3Decode sampleFrame).err = none ∧
    ∃ b4 b5 b6 b7 : Byte,
      sampleFrame[4]? = some b4 ∧ sampleFrame[5]? = some b5 ∧ sampleFrame[6]? = some b6 ∧
      sampleFrame[7]? = some b7 ∧
      (DNP3Decode sampleFrame).d.DataLinkLayer.Destination = b4.val + 256 * b5.val ∧
      (DNP3Decode sampleFrame).d.DataLinkLayer.Source = b6.val + 256 * b7.val := by
  obtain ⟨b4, b5, b6, b7, h4, h5, h6, h7, hd, hs, -⟩ :=
    C8_addresses_little_endian sampleFrame rfl
  exact ⟨rfl, b4, b5, b6, b7, h4, h5, h6, h7, hd, hs⟩

/-! ## Function code lookups -/

/-- C9, counterexample: on the thirteen-byte buffer
`05 64 08 c4 0a 00 01 00 fc 42 c0 c0 32`, whose function byte is 50, decoding
does not fail, `FCodes` has no entry for 50, and the label is `" (0x32)"`: the
name in front of `" (0x32)"` is the empty string of a Go map miss, so no
placeholder text stands in the label. -/
theorem C9_missing_code_has_empty_name :
    (DNP3Decode [0x05, 0x64, 0x08, 0xc4, 0x0a, 0x00, 0x01, 0x00, 0xfc, 0x42, 0xc0, 0xc0,
      50]).err = none ∧
    FCodes.lookup 50 = none ∧
    (DNP3Decode [0x05, 0x64, 0x08, 0xc4, 0x0a, 0x00, 0x01, 0x00, 0xfc, 0x42, 0xc0, 0xc0,
      50]).d.ApplicationLayer.Function = " (0x32)" ∧
    ¬ ∃ placeholder : String, placeholder ≠ "" ∧
      (DNP3Decode [0x05, 0x64, 0x08, 0xc4, 0x0a, 0x00, 0x01, 0x00, 0xfc, 0x42, 0xc0, 0xc0,
        50]).d.ApplicationLayer.Function =
        placeholder ++ " (0x" ++ String.mk (Nat.toDigits 16 50) ++ ")" := by
  refine ⟨rfl, by decide, rfl, ?_⟩
  rintro ⟨p, hp, h⟩
  have hf : (DNP3Decode [0x05, 0x64, 0x08, 0xc4, 0x0a, 0x00, 0x01, 0x00, 0xfc, 0x42, 0xc0,
      0xc0, 50]).d.ApplicationLayer.Function = " (0x32)" := rfl
  rw [hf] at h
  have hlen := congrArg String.length h
  simp only [String.length_append] at hlen
  have h1 : (" (0x32)" : String).length = 7 := by decide
  have h2 : (" (0x" : String).length = 4 := by decide
  have h3 : (String.mk (Nat.toDigits 16 50)).length = 2 := by decide
  have h4 : (")" : String).length = 1 := by decide
  rw [h1, h2, h3, h4] at hlen
  have hzero : p.length = 0 := by omega
  apply hp
  have hdata : p.data = [] := List.length_eq_zero.mp hzero
  cases p
  simp_all

/-- C9, as amended: for every buffer of at least 13 bytes that starts with
`05 64` and every value `f` of the application function byte (offset 12),
decoding does not fail and the Function label is
`name ++ " (0x" ++ hex f ++ ")"`, where `hex f` is `f` in lowercase hexadecimal
without padding and `name` is the `FCodes` entry of `f` when there is one and
the empty string when there is none.  Code 50 has no entry: its label is
`" (0x32)"`, not a failure. -/
theorem C9_application_function_label (data : List Byte) (f : Byte)
    (hlen : 13 ≤ data.length) (h0 : data[0]? = some 0x05) (h1 : data[1]? = some 0x64)
    (h12 : data[12]? = some f) :
    (DNP3Decode data).err = none ∧
    (∀ name, FCodes.lookup f.val = some name →
      (DNP3Decode data).d.ApplicationLayer.Function =
        name ++ " (0x" ++ String.mk (Nat.toDigits 16 f.val) ++ ")") ∧
    (FCodes.lookup f.val = none →
      (DNP3Decode data).d.ApplicationLayer.Function =
        "" ++ " (0x" ++ String.mk (Nat.toDigits 16 f.val) ++ ")") ∧
    FCodes.lookup 50 = none ∧
    (f.val = 50 → (DNP3Decode data).d.ApplicationLayer.Function = " (0x32)") := by
  obtain ⟨a0, a1, b2, b3, b4, b5, b6, b7, b8, b9, b10, b11, a12, rest, rfl⟩ :=
    exists_thirteen_of_length hlen
  simp at h0 h1 h12
  subst h0 h1 h12
  rw [DNP3Decode_frame]
  simp only [Outcome.done, applicationRecord, fmtHex_zero, CodeTable.index]
  have hassoc : ∀ name digits : String,
      name ++ " (" ++ ("0x" ++ digits) ++ ")" = name ++ " (0x" ++ digits ++ ")" := by
    intro name digits
    have e : name ++ " (0x" = name ++ " (" ++ "0x" := by
      rw [String.append_assoc]; rfl
    rw [e, String.append_assoc (name ++ " (") "0x" digits]
  refine ⟨trivial, ?_, ?_, by decide, ?_⟩
  · intro name hname
    rw [hname, hassoc]; rfl
  · intro hnone
    rw [hnone, hassoc]; rfl
  · intro h50
    rw [h50]; decide

/-- Witness of C9 at the sample payload with function byte 50 (`0x32`) in
place of `0e`, and at the sample payload itself. -/
theorem C9_application_function_label_witness :
    13 ≤ (sampleFrame.set 12 50).length ∧ (sampleFrame.set 12 50)[0]? = some 0x05 ∧
    (sampleFrame.set 12 50)[1]? = some 0x64 ∧ (sampleFrame.set 12 50)[12]? = some 50 ∧
    (DNP3Decode (sampleFrame.set 12 50)).err = none ∧
    (DNP3Decode (sampleFrame.set 12 50)).d.ApplicationLayer.Function = " (0x32)" ∧
    (DNP3Decode sampleFrame).d.ApplicationLayer.Function = "Warm Restart (0xe)" := by
  have h := C9_application_function_label (sampleFrame.set 12 50) 50 (by decide) rfl rfl rfl
  have g := C9_application_function_label sampleFrame 0x0e (by decide) rfl rfl rfl
  exact ⟨by decide, rfl, rfl, rfl, h.1, h.2.2.2.2 rfl, g.2.1 "Warm Restart" rfl⟩

/-- C10: for every link control byte `b` (offset 3 of a buffer that holds the
ten header bytes) the function code `c = b & 0x0F` is below 16, it is a key
of both `PfCodes` and `SfCodes`, and the name part of the label written by
`setDataLinkLayer` is the entry of `c` in the table selected by PRM; that
name is never the empty string of a map miss.  Reserved codes such as 5 in
`PfCodes` and 2 in `SfCodes` have the entry `"-"`. -/
theorem C10_link_function_lookup_hits (d : DNP3) (data : List Byte) (b : Byte)
    (hlen : 10 ≤ data.length) (h3 : data[3]? = some b) :
    b.val &&& 0x0F < 16 ∧
    (PfCodes.lookup (b.val &&& 0x0F)).isSome ∧
    (SfCodes.lookup (b.val &&& 0x0F)).isSome ∧
    (∃ name, name ≠ "" ∧
      (setDataLinkLayer d data).d.DataLinkLayer.Control.FUNC =
        name ++ " (" ++ Nat.repr (b.val &&& 0x0F) ++ ")" ∧
      (b.val / 64 % 2 = 1 → PfCodes.lookup (b.val &&& 0x0F) = some name) ∧
      (b.val / 64 % 2 = 0 → SfCodes.lookup (b.val &&& 0x0F) = some name)) ∧
    PfCodes.lookup 5 = some "-" ∧ SfCodes.lookup 2 = some "-" := by
  obtain ⟨b0, b1, b2, a3, b4, b5, b6, b7, b8, b9, rest, rfl⟩ := exists_ten_of_length hlen
  simp at h3
  subst h3
  rw [setDataLinkLayer_cons]
  obtain ⟨-, h6, -, -, hc, -⟩ := byte_mask_shift a3.val a3.isLt
  have hlt : a3.val &&& 0x0F < 16 := by rw [hc]; omega
  obtain ⟨⟨pf, hpf, hpf'⟩, ⟨sf, hsf, hsf'⟩⟩ := link_tables_total _ hlt
  simp only [Outcome.done, linkRecord, h6]
  refine ⟨hlt, by rw [hpf]; rfl, by rw [hsf]; rfl, ?_, by decide, by decide⟩
  have hbit : a3.val / 64 % 2 = 0 ∨ a3.val / 64 % 2 = 1 := by omega
  rcases hbit with hz | ho
  · refine ⟨sf, hsf', ?_, fun h => by omega, fun _ => hsf⟩
    rw [hz, linkFunctionName_zero]
    simp only [CodeTable.index, hsf]
    rfl
  · refine ⟨pf, hpf', ?_, fun _ => hpf, fun h => by omega⟩
    rw [ho, linkFunctionName_one]
    simp only [CodeTable.index, hpf]
    rfl

/-- Witness of C10 at the sample payload with link control byte `c5`
(PRM 1, reserved code 5) in place of `c4`. -/
theorem C10_link_function_lookup_hits_witness :
    10 ≤ (sampleFrame.set 3 0xc5).length ∧ (sampleFrame.set 3 0xc5)[3]? = some 0xc5 ∧
    (∃ name, name ≠ "" ∧
      (setDataLinkLayer {} (sampleFrame.set 3 0xc5)).d.DataLinkLayer.Control.FUNC =
        name ++ " (" ++ Nat.repr ((0xc5 : Byte).val &&& 0x0F) ++ ")") ∧
    (setDataLinkLayer {} (sampleFrame.set 3 0xc5)).d.DataLinkLayer.Control.FUNC = "- (5)" := by
  obtain ⟨-, -, -, ⟨name, hne, hf, -⟩, -⟩ :=
    C10_link_function_lookup_hits {} (sampleFrame.set 3 0xc5) 0xc5 (by decide) rfl
  exact ⟨by decide, rfl, ⟨name, hne, hf⟩, rfl⟩

/-! ## The sample payload -/

/-- C11: decoding the 15-byte buffer `05 64 08 c4 0a 00 01 00 fc 42 c0 c0 0e 7e dc`
succeeds with Start = "0564", Length = 8, link control byte `c4` giving
IsMaster = 1, PRM = 1, FCB = 0, FCV = 0 and the link function label
"Unconfirmed User Data (4)", Destination = 10, Source = 1, and transport byte
`c0` giving Final = 1, First = 1, Sequence = 0. -/
theorem C11_sample_link_and_transport :
    (DNP3Decode [0x05, 0x64, 0x08, 0xc4, 0x0a, 0x00, 0x01, 0x00, 0xfc, 0x42, 0xc0, 0xc0, 0x0e,
      0x7e, 0xdc]).err = none ∧
    (DNP3Decode [0x05, 0x64, 0x08, 0xc4, 0x0a, 0x00, 0x01, 0x00, 0xfc, 0x42, 0xc0, 0xc0, 0x0e,
      0x7e, 0xdc]).d.DataLinkLayer =
      { Start := "0564"
        Length := 8
        Control :=
          { ControlByte := "c4", IsMaster := 1, PRM := 1, FCB := 0, FCV := 0,
            FUNC := "Unconfirmed User Data (4)" }
        Destination := 10
        Source := 1
        CRC := "0x42fc" } ∧
    (DNP3Decode [0x05, 0x64, 0x08, 0xc4, 0x0a, 0x00, 0x01, 0x00, 0xfc, 0x42, 0xc0, 0xc0, 0x0e,
      0x7e, 0xdc]).d.TransportLayer =
      { TransportByte := "0xc0", Final := 1, First := 1, Sequence := 0 } :=
  ⟨rfl, by decide, by decide⟩

/-- C12, counterexample: in the 15-byte sample buffer the application control
byte, read at offset 11, is `c0` and the function byte, read at offset 12,
is `0e`; the decoded control text is "0xc0", not "0xe", and the function
label is "Warm Restart (0xe)", not the label of `7e`, which would be
" (0x7e)".  The bytes `0e 7e` stand at offsets 12 and 13. -/
theorem C12_sample_application_bytes_differ :
    ([0x05, 0x64, 0x08, 0xc4, 0x0a, 0x00, 0x01, 0x00, 0xfc, 0x42, 0xc0, 0xc0, 0x0e,
      0x7e, 0xdc] : List Byte)[11]? = some 0xc0 ∧
    ([0x05, 0x64, 0x08, 0xc4, 0x0a, 0x00, 0x01, 0x00, 0xfc, 0x42, 0xc0, 0xc0, 0x0e,
      0x7e, 0xdc] : List Byte)[12]? = some 0x0e ∧
    (DNP3Decode [0x05, 0x64, 0x08, 0xc4, 0x0a, 0x00, 0x01, 0x00, 0xfc, 0x42, 0xc0, 0xc0, 0x0e,
      0x7e, 0xdc]).d.ApplicationLayer ≠ applicationRecord 0x0e 0x7e ∧
    (DNP3Decode [0x05, 0x64, 0x08, 0xc4, 0x0a, 0x00, 0x01, 0x00, 0xfc, 0x42, 0xc0, 0xc0, 0x0e,
      0x7e, 0xdc]).d.ApplicationLayer.Control.ControlByte ≠ "0xe" ∧
    (DNP3Decode [0x05, 0x64, 0x08, 0xc4, 0x0a, 0x00, 0x01, 0x00, 0xfc, 0x42, 0xc0, 0xc0, 0x0e,
      0x7e, 0xdc]).d.ApplicationLayer.Function ≠ " (0x7e)" ∧
    (applicationRecord 0x0e 0x7e).Control.ControlByte = "0xe" ∧
    (applicationRecord 0x0e 0x7e).Function = " (0x7e)" := by
  refine ⟨rfl, rfl, ?_, ?_, ?_, ?_, ?_⟩ <;> decide

/-- C12, as amended: decoding the 15-byte buffer
`05 64 08 c4 0a 00 01 00 fc 42 c0 c0 0e 7e dc` yields an application header
whose control byte is `c0` (offset 11) and whose function byte is `0e`
(offset 12): control text "0xc0", First = 1, Final = 1, Confirm = 0,
Unsolicited = 0, Sequence = 0 and function label "Warm Restart (0xe)". -/
theorem C12_sample_application_header :
    (DNP3Decode [0x05, 0x64, 0x08, 0xc4, 0x0a, 0x00, 0x01, 0x00, 0xfc, 0x42, 0xc0, 0xc0, 0x0e,
      0x7e, 0xdc]).err = none ∧
    (DNP3Decode [0x05, 0x64, 0x08, 0xc4, 0x0a, 0x00, 0x01, 0x00, 0xfc, 0x42, 0xc0, 0xc0, 0x0e,
      0x7e, 0xdc]).d.ApplicationLayer =
      { Control :=
          { ControlByte := "0xc0", First := 1, Final := 1, Confirm := 0, Unsolicited := 0,
            Sequence := 0 }
        Function := "Warm Restart (0xe)" } ∧
    (DNP3Decode [0x05, 0x64, 0x08, 0xc4, 0x0a, 0x00, 0x01, 0x00, 0xfc, 0x42, 0xc0, 0xc0, 0x0e,
      0x7e, 0xdc]).d.ApplicationLayer = applicationRecord 0xc0 0x0e :=
  ⟨rfl, by decide, by decide⟩

/-! ## Ranges of the sequence fields -/

/-- C13: for every buffer that decodes without failure, bytes 10 and 11 exist,
the transport Sequence is byte 10 modulo 64 and so lies in 0..63, and the
application Sequence is byte 11 modulo 16 and so lies in 0..15.  Every value
of 0..63 is the transport Sequence of some decodable buffer and every value
of 0..15 is the application Sequence of some decodable buffer. -/
theorem C13_sequence_ranges (data : List Byte) (h : (DNP3Decode data).err = none) :
    (∃ b10 b11 : Byte, data[10]? = some b10 ∧ data[11]? = some b11 ∧
      (DNP3Decode data).d.TransportLayer.Sequence = b10.val % 64 ∧
      (DNP3Decode data).d.ApplicationLayer.Control.Sequence = b11.val % 16) ∧
    (DNP3Decode data).d.TransportLayer.Sequence < 64 ∧
    (DNP3Decode data).d.ApplicationLayer.Control.Sequence < 16 ∧
    (∀ s : Fin 64, ∃ frame : List Byte, (DNP3Decode frame).err = none ∧
      (DNP3Decode frame).d.TransportLayer.Sequence = s.val) ∧
    (∀ s : Fin 16, ∃ frame : List Byte, (DNP3Decode frame).err = none ∧
      (DNP3Decode frame).d.ApplicationLayer.Control.Sequence = s.val) := by
  obtain ⟨b2, b3, b4, b5, b6, b7, b8, b9, b10, b11, b12, rest, rfl⟩ := frame_of_decoded h
  obtain ⟨-, -, -, -, -, ht⟩ := byte_mask_shift b10.val b10.isLt
  obtain ⟨-, -, -, -, ha, -⟩ := byte_mask_shift b11.val b11.isLt
  have e10 : (DNP3Decode (0x05 :: 0x64 :: b2 :: b3 :: b4 :: b5 :: b6 :: b7 :: b8 :: b9 ::
      b10 :: b11 :: b12 :: rest)).d.TransportLayer.Sequence = b10.val % 64 := by
    rw [DNP3Decode_frame]; exact ht
  have e11 : (DNP3Decode (0x05 :: 0x64 :: b2 :: b3 :: b4 :: b5 :: b6 :: b7 :: b8 :: b9 ::
      b10 :: b11 :: b12 :: rest)).d.ApplicationLayer.Control.Sequence = b11.val % 16 := by
    rw [DNP3Decode_frame]; exact ha
  refine ⟨⟨b10, b11, rfl, rfl, e10, e11⟩, by rw [e10]; omega, by rw [e11]; omega, ?_, ?_⟩
  · intro s
    have hs : s.val < 256 := by have := s.isLt; omega
    refine ⟨0x05 :: 0x64 :: 0 :: 0 :: 0 :: 0 :: 0 :: 0 :: 0 :: 0 :: ⟨s.val, hs⟩ :: 0 :: 0 :: [],
      ?_, ?_⟩
    · rw [DNP3Decode_frame]; rfl
    · rw [DNP3Decode_frame]
      have := (byte_mask_shift s.val hs).2.2.2.2.2
      have hlt := s.isLt
      simp only [Outcome.done, transportRecord]
      omega
  · intro s
    have hs : s.val < 256 := by have := s.isLt; omega
    refine ⟨0x05 :: 0x64 :: 0 :: 0 :: 0 :: 0 :: 0 :: 0 :: 0 :: 0 :: 0 :: ⟨s.val, hs⟩ :: 0 :: [],
      ?_, ?_⟩
    · rw [DNP3Decode_frame]; rfl
    · rw [DNP3Decode_frame]
      have := (byte_mask_shift s.val hs).2.2.2.2.1
      have hlt := s.isLt
      simp only [Outcome.done, applicationRecord]
      omega

/-- Witness of C13 at the second sample payload, whose transport byte is `c1`
and whose application control byte is `c0`. -/
theorem C13_sequence_ranges_witness :
    (DNP3Decode sampleResponse).err = none ∧
    (DNP3Decode sampleResponse).d.TransportLayer.Sequence < 64 ∧
    (DNP3Decode sampleResponse).d.ApplicationLayer.Control.Sequence < 16 ∧
    (DNP3Decode sampleResponse).d.TransportLayer.Sequence = 1 :=
  ⟨rfl, (C13_sequence_ranges sampleResponse rfl).2.1,
    (C13_sequence_ranges sampleResponse rfl).2.2.1, rfl⟩

/-! ## When decoding produces a record -/

/-- C14: decoding ends without failure if and only if the buffer has at least
13 bytes and its bytes 0 and 1 are `05` and `64`.  Nothing else is looked at:
whatever the length byte, the control bytes, the addresses, the CRC bytes, the
function code and the bytes after offset 12 are, such a buffer decodes. -/
theorem C14_decodes_iff_thirteen_bytes_and_start (data : List Byte) :
    ((DNP3Decode data).err = none ↔
      (13 ≤ data.length ∧ data[0]? = some 0x05 ∧ data[1]? = some 0x64)) ∧
    (∀ (b2 b3 b4 b5 b6 b7 b8 b9 b10 b11 b12 : Byte) (rest : List Byte),
      (DNP3Decode (0x05 :: 0x64 :: b2 :: b3 :: b4 :: b5 :: b6 :: b7 :: b8 :: b9 :: b10 ::
        b11 :: b12 :: rest)).err = none) := by
  refine ⟨⟨fun h => ?_, fun h => ?_⟩, fun b2 b3 b4 b5 b6 b7 b8 b9 b10 b11 b12 rest => ?_⟩
  · obtain ⟨b2, b3, b4, b5, b6, b7, b8, b9, b10, b11, b12, rest, rfl⟩ := frame_of_decoded h
    refine ⟨by simp, rfl, rfl⟩
  · obtain ⟨hlen, h0, h1⟩ := h
    obtain ⟨a0, a1, b2, b3, b4, b5, b6, b7, b8, b9, b10, b11, b12, rest, rfl⟩ :=
      exists_thirteen_of_length hlen
    simp at h0 h1
    subst h0 h1
    rw [DNP3Decode_frame]; rfl
  · rw [DNP3Decode_frame]; rfl

/-! ## Which bytes each sub-record depends on -/

/-- C15: for any two buffers of at least 13 bytes that both start with `05 64`:
if they agree on bytes 0..9 their DataLinkLayer sub-records are equal, if
they agree on byte 10 their TransportLayer sub-records are equal, and if they
agree on bytes 11 and 12 their ApplicationLayer sub-records are equal.  Two
such buffers that agree on bytes 0..12 decode to the same outcome, whatever
follows offset 12 and whatever their lengths. -/
theorem C15_sub_records_depend_on_own_bytes (data other : List Byte)
    (hlen : 13 ≤ data.length) (h0 : data[0]? = some 0x05) (h1 : data[1]? = some 0x64)
    (hlen' : 13 ≤ other.length) (h0' : other[0]? = some 0x05)
    (h1' : other[1]? = some 0x64) :
    ((∀ i, i < 10 → data[i]? = other[i]?) →
      (DNP3Decode data).d.DataLinkLayer = (DNP3Decode other).d.DataLinkLayer) ∧
    (data[10]? = other[10]? →
      (DNP3Decode data).d.TransportLayer = (DNP3Decode other).d.TransportLayer) ∧
    (data[11]? = other[11]? → data[12]? = other[12]? →
      (DNP3Decode data).d.ApplicationLayer = (DNP3Decode other).d.ApplicationLayer) ∧
    ((∀ i, i < 13 → data[i]? = other[i]?) → DNP3Decode data = DNP3Decode other) := by
  obtain ⟨a0, a1, a2, a3, a4, a5, a6, a7, a8, a9, a10, a11, a12, rest, rfl⟩ :=
    exists_thirteen_of_length hlen
  obtain ⟨c0, c1, c2, c3, c4, c5, c6, c7, c8, c9, c10, c11, c12, rest', rfl⟩ :=
    exists_thirteen_of_length hlen'
  simp at h0 h1 h0' h1'
  subst h0 h1 h0' h1'
  rw [DNP3Decode_frame, DNP3Decode_frame]
  simp only [Outcome.done]
  refine ⟨fun h => ?_, fun h => ?_, fun h h' => ?_, fun h => ?_⟩
  · have e2 := h 2 (by omega)
    have e3 := h 3 (by omega)
    have e4 := h 4 (by omega)
    have e5 := h 5 (by omega)
    have e6 := h 6 (by omega)
    have e7 := h 7 (by omega)
    have e8 := h 8 (by omega)
    have e9 := h 9 (by omega)
    simp at e2 e3 e4 e5 e6 e7 e8 e9
    subst e2 e3 e4 e5 e6 e7 e8 e9
    rfl
  · simp at h
    subst h
    rfl
  · simp at h h'
    subst h h'
    rfl
  · have e2 := h 2 (by omega)
    have e3 := h 3 (by omega)
    have e4 := h 4 (by omega)
    have e5 := h 5 (by omega)
    have e6 := h 6 (by omega)
    have e7 := h 7 (by omega)
    have e8 := h 8 (by omega)
    have e9 := h 9 (by omega)
    have e10 := h 10 (by omega)
    have e11 := h 11 (by omega)
    have e12 := h 12 (by omega)
    simp at e2 e3 e4 e5 e6 e7 e8 e9 e10 e11 e12
    subst e2 e3 e4 e5 e6 e7 e8 e9 e10 e11 e12
    rfl

/-- Witness of C15 at the first sample payload and the same payload with its
trailing bytes `7e dc` removed. -/
theorem C15_sub_records_depend_on_own_bytes_witness :
    13 ≤ sampleFrame.length ∧ sampleFrame[0]? = some 0x05 ∧ sampleFrame[1]? = some 0x64 ∧
    13 ≤ (sampleFrame.take 13).length ∧
    DNP3Decode sampleFrame = DNP3Decode (sampleFrame.take 13) := by
  have h := C15_sub_records_depend_on_own_bytes sampleFrame (sampleFrame.take 13)
    (by decide) rfl rfl (by decide) rfl rfl
  refine ⟨by decide, rfl, rfl, by decide, h.2.2.2 ?_⟩
  decide

/-! ## Which sub-record each stage writes -/

/-- C16: each stage writes only its own sub-record.  For every record `d` and
every buffer `data`, long enough for the stage or not, `setDataLinkLayer`
leaves `d.TransportLayer` and `d.ApplicationLayer` unchanged,
`setTransportLayer` leaves `d.DataLinkLayer` and `d.ApplicationLayer`
unchanged, `setApplicationLayer` leaves `d.DataLinkLayer` and
`d.TransportLayer` unchanged, and `checkLength` and `ifDNP3` leave the whole
record unchanged. -/
theorem C16_stages_write_own_sub_record (d : DNP3) (data : List Byte) :
    (setDataLinkLayer d data).d.TransportLayer = d.TransportLayer ∧
    (setDataLinkLayer d data).d.ApplicationLayer = d.ApplicationLayer ∧
    (setTransportLayer d data).d.DataLinkLayer = d.DataLinkLayer ∧
    (setTransportLayer d data).d.ApplicationLayer = d.ApplicationLayer ∧
    (setApplicationLayer d data).d.DataLinkLayer = d.DataLinkLayer ∧
    (setApplicationLayer d data).d.TransportLayer = d.TransportLayer ∧
    (checkLength d data).d = d ∧
    (ifDNP3 d data).d = d := by
  refine ⟨?_, ?_, ?_, ?_, ?_, ?_, ?_, ?_⟩
  · unfold setDataLinkLayer
    repeat' split
    all_goals rfl
  · unfold setDataLinkLayer
    repeat' split
    all_goals rfl
  · unfold setTransportLayer
    repeat' split
    all_goals rfl
  · unfold setTransportLayer
    repeat' split
    all_goals rfl
  · unfold setApplicationLayer
    repeat' split
    all_goals rfl
  · unfold setApplicationLayer
    repeat' split
    all_goals rfl
  · unfold checkLength
    split <;> rfl
  · unfold ifDNP3
    repeat' split
    all_goals rfl

/-! ## Contents of the code tables -/

/-- C17: `FCodes` has an entry with a non-empty name for a byte value `f` if
and only if `f` is in 0..33 or in 129..131; for every other byte value the
lookup finds nothing and indexing gives the empty string. -/
theorem C17_FCodes_named_entries (f : Byte) :
    ((∃ name, FCodes.lookup f.val = some name ∧ name ≠ "") ↔
      (f.val ≤ 33 ∨ (129 ≤ f.val ∧ f.val ≤ 131))) ∧
    (¬ (f.val ≤ 33 ∨ (129 ≤ f.val ∧ f.val ≤ 131)) →
      FCodes.lookup f.val = none ∧ FCodes.index f.val = "") := by
  obtain ⟨hin, hout⟩ := FCodes_keys f.val f.isLt
  refine ⟨⟨?_, ?_⟩, ?_⟩
  · rintro ⟨name, hname, -⟩
    by_contra hno
    rw [hout hno] at hname
    exact Option.noConfusion hname
  · intro hrange
    obtain ⟨hsome, hne⟩ := hin hrange
    obtain ⟨name, hname⟩ := Option.isSome_iff_exists.mp hsome
    refine ⟨name, hname, ?_⟩
    rintro rfl
    exact hne hname
  · intro hno
    refine ⟨hout hno, ?_⟩
    simp [CodeTable.index, hout hno]

/-- C18, counterexample: in `PfCodes` the indices 14 and 15 are also stored as
the reserved marker `"-"`; they have no function name. -/
theorem C18_PfCodes_fourteen_fifteen_reserved :
    PfCodes.lookup 14 = some "-" ∧ PfCodes.lookup 15 = some "-" ∧
    ¬ (∀ c : Fin 16, PfCodes.lookup c.val = some "-" ↔
      c.val ∈ [5, 6, 7, 8, 10, 11, 12, 13]) := by
  refine ⟨by decide, by decide, ?_⟩
  intro h
  have h14 := (h 14).mp (by decide)
  revert h14
  decide

/-- C18, as amended: in `PfCodes` the indices of 0..15 stored as the reserved
marker `"-"` are exactly 5, 6, 7, 8, 10, 11, 12, 13, 14 and 15; every other
index of 0..15, that is 0..4 and 9, has a function name, which is neither
`"-"` nor empty. -/
theorem C18_PfCodes_reserved_indices (c : Fin 16) :
    (PfCodes.lookup c.val = some "-" ↔ c.val ∈ [5, 6, 7, 8, 10, 11, 12, 13, 14, 15]) ∧
    (c.val ∉ [5, 6, 7, 8, 10, 11, 12, 13, 14, 15] ↔ c.val ∈ [0, 1, 2, 3, 4, 9]) ∧
    (c.val ∈ [0, 1, 2, 3, 4, 9] →
      (PfCodes.lookup c.val).isSome = true ∧ PfCodes.lookup c.val ≠ some "-" ∧
      PfCodes.lookup c.val ≠ some "") ∧
    PfCodes.map Prod.fst = List.range 16 := by
  revert c
  decide

/-- C20, counterexample: the `FCodes` literal does not have 35 entries; it has
37, and 37 byte values have an entry. -/
theorem C20_FCodes_not_thirty_five :
    FCodes.length ≠ 35 ∧
    ((List.range 256).filter fun k => (FCodes.lookup k).isSome).length ≠ 35 := by
  constructor <;> decide

/-- C20, as amended: `FCodes` has exactly 37 entries, with pairwise distinct
keys: the 34 keys 0..33 and the 3 keys 129, 130, 131. -/
theorem C20_FCodes_thirty_seven_entries :
    FCodes.length = 37 ∧
    (FCodes.map Prod.fst).Nodup ∧
    FCodes.map Prod.fst = List.range 34 ++ [129, 130, 131] ∧
    ((List.range 256).filter fun k => (FCodes.lookup k).isSome).length = 37 := by
  refine ⟨by decide, by decide, by decide, by decide⟩

/-! ## The CRC field -/

/-- C19: for every buffer that decodes without failure, bytes 8 and 9 exist and
the CRC field is the text "0x" followed by exactly four lowercase hexadecimal
digits, those of `data[8] + 256*data[9]`, most significant first.  The text
determines the two bytes: a second decodable buffer with the same CRC text has
the same bytes 8 and 9.  No CRC is computed or compared: replacing bytes 8 and
9 by any two bytes leaves decoding without failure and changes no field other
than the CRC text. -/
theorem C19_crc_text_little_endian (data : List Byte) (h : (DNP3Decode data).err = none) :
    ∃ b8 b9 : Byte, data[8]? = some b8 ∧ data[9]? = some b9 ∧
      (DNP3Decode data).d.DataLinkLayer.CRC =
        "0x" ++ String.mk
          [Nat.digitChar ((b8.val + 256 * b9.val) / 4096),
            Nat.digitChar ((b8.val + 256 * b9.val) / 256 % 16),
            Nat.digitChar ((b8.val + 256 * b9.val) / 16 % 16),
            Nat.digitChar ((b8.val + 256 * b9.val) % 16)] ∧
      Nat.digitChar ((b8.val + 256 * b9.val) / 4096) ∈ "0123456789abcdef".data ∧
      Nat.digitChar ((b8.val + 256 * b9.val) / 256 % 16) ∈ "0123456789abcdef".data ∧
      Nat.digitChar ((b8.val + 256 * b9.val) / 16 % 16) ∈ "0123456789abcdef".data ∧
      Nat.digitChar ((b8.val + 256 * b9.val) % 16) ∈ "0123456789abcdef".data ∧
      (∀ (other : List Byte) (c8 c9 : Byte), (DNP3Decode other).err = none →
        other[8]? = some c8 → other[9]? = some c9 →
        (DNP3Decode other).d.DataLinkLayer.CRC = (DNP3Decode data).d.DataLinkLayer.CRC →
        c8 = b8 ∧ c9 = b9) ∧
      (∀ x y : Byte,
        (DNP3Decode ((data.set 8 x).set 9 y)).err = none ∧
        (DNP3Decode ((data.set 8 x).set 9 y)).d.TransportLayer =
          (DNP3Decode data).d.TransportLayer ∧
        (DNP3Decode ((data.set 8 x).set 9 y)).d.ApplicationLayer =
          (DNP3Decode data).d.ApplicationLayer ∧
        { (DNP3Decode ((data.set 8 x).set 9 y)).d.DataLinkLayer with
            CRC := (DNP3Decode data).d.DataLinkLayer.CRC } =
          (DNP3Decode data).d.DataLinkLayer) := by
  obtain ⟨b2, b3, b4, b5, b6, b7, b8, b9, b10, b11, b12, rest, rfl⟩ := frame_of_decoded h
  have hb8 := b8.isLt
  have hb9 := b9.isLt
  have hcrc : (DNP3Decode (0x05 :: 0x64 :: b2 :: b3 :: b4 :: b5 :: b6 :: b7 :: b8 :: b9 ::
      b10 :: b11 :: b12 :: rest)).d.DataLinkLayer.CRC =
      "0x" ++ String.mk
        [Nat.digitChar ((b8.val + 256 * b9.val) / 4096),
          Nat.digitChar ((b8.val + 256 * b9.val) / 256 % 16),
          Nat.digitChar ((b8.val + 256 * b9.val) / 16 % 16),
          Nat.digitChar ((b8.val + 256 * b9.val) % 16)] := by
    rw [DNP3Decode_frame]
    simp only [Outcome.done, linkRecord]
    rw [or_shiftLeft_eight _ _ hb8, fmtHex_four _ (by omega)]
  refine ⟨b8, b9, rfl, rfl, hcrc, digitChar_hex.1 _ (by omega), digitChar_hex.1 _ (by omega),
    digitChar_hex.1 _ (by omega), digitChar_hex.1 _ (by omega), ?_, ?_⟩
  · intro other c8 c9 herr h8 h9 heq
    obtain ⟨a2, a3, a4, a5, a6, a7, a8, a9, a10, a11, a12, rest', rfl⟩ := frame_of_decoded herr
    simp at h8 h9
    subst h8 h9
    have ha8 := a8.isLt
    have ha9 := a9.isLt
    rw [hcrc, DNP3Decode_frame] at heq
    simp only [Outcome.done, linkRecord] at heq
    rw [or_shiftLeft_eight _ _ ha8, fmtHex_four _ (by omega)] at heq
    have hdata := congrArg String.data heq
    simp only [String.data_append, List.append_cancel_left_eq, List.cons.injEq,
      and_true] at hdata
    obtain ⟨e3, e2, e1, e0⟩ := hdata
    have n3 := digitChar_hex.2 _ (by omega) _ (by omega) e3
    have n2 := digitChar_hex.2 _ (by omega) _ (by omega) e2
    have n1 := digitChar_hex.2 _ (by omega) _ (by omega) e1
    have n0 := digitChar_hex.2 _ (by omega) _ (by omega) e0
    constructor <;> apply Fin.ext <;> omega
  · intro x y
    have hset : ((0x05 :: 0x64 :: b2 :: b3 :: b4 :: b5 :: b6 :: b7 :: b8 :: b9 ::
        b10 :: b11 :: b12 :: rest).set 8 x).set 9 y =
        0x05 :: 0x64 :: b2 :: b3 :: b4 :: b5 :: b6 :: b7 :: x :: y :: b10 :: b11 :: b12 ::
          rest := rfl
    rw [hset, DNP3Decode_frame, DNP3Decode_frame]
    exact ⟨rfl, rfl, rfl, rfl⟩

/-- Witness of C19 at the sample payload, whose CRC bytes are `fc 42`. -/
theorem C19_crc_text_little_endian_witness :
    (DNP3Decode sampleFrame).err = none ∧
    (DNP3Decode sampleFrame).d.DataLinkLayer.CRC = "0x42fc" ∧
    ∃ b8 b9 : Byte, sampleFrame[8]? = some b8 ∧ sampleFrame[9]? = some b9 ∧
      (DNP3Decode sampleFrame).d.DataLinkLayer.CRC =
        "0x" ++ String.mk
          [Nat.digitChar ((b8.val + 256 * b9.val) / 4096),
            Nat.digitChar ((b8.val + 256 * b9.val) / 256 % 16),
            Nat.digitChar ((b8.val + 256 * b9.val) / 16 % 16),
            Nat.digitChar ((b8.val + 256 * b9.val) % 16)] := by
  obtain ⟨b8, b9, h8, h9, hcrc, -⟩ := C19_crc_text_little_endian sampleFrame rfl
  exact ⟨rfl, rfl, b8, b9, h8, h9, hcrc⟩

end GoDpi
